import Mathlib

/-!
Verification development for the IMAGEHARDER hardened media-decoding library
(`src/image_harden`).  The pure Rust control flow of each decoder / validator
in `src/lib.rs` and the CLI in `src/main.rs` is embedded shallowly; the
foreign C codecs (libpng, libjpeg, giflib) and the foreign Rust crates
(webp, libheif-rs, minimp3, lewton, claxon, mp4parse, matroska) are modelled
as oracle parameters, so every theorem quantifies over (or fixes) the codec
behaviour while the in-repository validation logic is translated verbatim.

Bytes are modelled as `List Nat` (each entry < 256 in the intended
interpretation; all byte extractions are total via a default of 0, which is
only ever used in positions the Rust code has already bounds-checked).
-/

namespace ImageHarden

/-- `data[i]`, defaulting to 0 out of range.  The Rust code only indexes after
explicit bounds checks, so the default is never observable there. -/
def byteAt (data : List Nat) (i : Nat) : Nat := data.getD i 0

/-- `u32::from_le_bytes(data[i..i+4])` (little-endian 32-bit read). -/
def le32 (data : List Nat) (i : Nat) : Nat :=
  byteAt data i + 256 * byteAt data (i + 1) + 65536 * byteAt data (i + 2) +
    16777216 * byteAt data (i + 3)

/-- `&data[i..i+pat.len()] == pat`, the slice-comparison pattern used by every
magic-byte check in `lib.rs`. -/
def sliceEq (data : List Nat) (i : Nat) : List Nat → Bool
  | [] => true
  | b :: bs => (byteAt data i == b) && sliceEq data (i + 1) bs

/-- Signature constants (byte values of the ASCII literals in `lib.rs`). -/
def riffB : List Nat := [82, 73, 70, 70]

def webpB : List Nat := [87, 69, 66, 80]

def aviSpaceB : List Nat := [65, 86, 73, 32]

def gifB : List Nat := [71, 73, 70]

def gif87B : List Nat := [56, 55, 97]

def gif89B : List Nat := [56, 57, 97]

def ftypB : List Nat := [102, 116, 121, 112]

def ebmlB : List Nat := [26, 69, 223, 163]

def oggB : List Nat := [79, 103, 103, 83]

def flacB : List Nat := [102, 76, 97, 67]

def avihB : List Nat := [97, 118, 105, 104]

def webmB : List Nat := [119, 101, 98, 109]

def strhB : List Nat := [115, 116, 114, 104]

/-- The `ImageHardenError` enum of `lib.rs`, restricted to the variants the
embedded code paths construct.  The `format!` payloads are represented by the
static prefix of the formatted message (the dynamic parts carry no
information the claims depend on). -/
inductive ImageHardenError where
  | PngError (msg : String)
  | JpegError (msg : String)
  | GifError (msg : String)
  | SvgError (msg : String)
  | WebPError (msg : String)
  | HeifError (msg : String)
  | Mp3Error (msg : String)
  | VorbisError (msg : String)
  | FlacError (msg : String)
  | AudioError (msg : String)
  | VideoContainerError (msg : String)
  | VideoValidationError (msg : String)
  | IoError
  | NullPointer
  deriving DecidableEq, Repr

/-- Result of a decode call, instrumented with whether control ever reached
the foreign codec (the "codec-call counter" of the specification's testable
property 2). -/
structure Traced (α : Type) where
  res : Except ImageHardenError α
  codecCalled : Bool

/-- The decoded output buffer of `decode_png` / `decode_jpeg`: Rust allocates
`vec![0u8; len]` and the codec overwrites it in place, so the buffer is the
codec-written bytes truncated/zero-padded to the adapter-chosen length. -/
def fillBuffer (len : Nat) (written : List Nat) : List Nat :=
  written.take len ++ List.replicate (len - (written.take len).length) 0

/-! ## PNG adapter (`decode_png`, lib.rs lines 102-171)

The Rust function performs NO data inspection of its own before calling into
libpng: `png_create_read_struct` / `png_read_info` are invoked on every
input, wrong magic included, and a failure inside the library surfaces via
the longjmp error callback as `PngError("PNG decoding failed")`.  The
library is modelled as an oracle: `none` = the library signalled an error
(wrong signature included); `some r` = a successful read.  After the forced
transforms (`png_set_expand`, `png_set_strip_16`, `png_set_gray_to_rgb`,
`png_set_add_alpha`) the row size is 4 × width (modelled from the spec:
output is always 8-bit RGBA).  The user limits 8192×8192 installed via
`png_set_user_limits` are enforced inside libpng, so theorems that need them
take them as an oracle hypothesis.  The null-allocation branches
(`NullPointer`) precede any data read and are omitted. -/

structure PngDecoded where
  width : Nat
  height : Nat
  pixels : List Nat

def PngOracle := (List Nat) → Option PngDecoded

def decode_png (lib : PngOracle) (data : List Nat) : Traced (List Nat) :=
  match lib data with
  | none => ⟨.error (.PngError "PNG decoding failed"), true⟩
  | some d => ⟨.ok (fillBuffer (4 * d.width * d.height) d.pixels), true⟩

/-! ## JPEG adapter (`decode_jpeg`, lib.rs lines 179-228)

Again no magic check of its own: `jpeg_read_header` is called on every
input; a header failure longjmps to `JpegError("JPEG decoding failed")`.
After the header the adapter checks `image_width > 10000 ||
image_height > 10000` and otherwise forces `out_color_space = JCS_RGB`, for
which libjpeg sets `output_components = 3`; the returned buffer has length
`row_stride * output_height = width * height * 3`.  No alpha padding is
performed anywhere in the function. -/

structure JpegHeader where
  image_width : Nat
  image_height : Nat

def JpegOracle := (List Nat) → Option (JpegHeader × List Nat)

def decode_jpeg (lib : JpegOracle) (data : List Nat) : Traced (List Nat) :=
  match lib data with
  | none => ⟨.error (.JpegError "JPEG decoding failed"), true⟩
  | some (hd, pix) =>
    if hd.image_width > 10000 ∨ hd.image_height > 10000 then
      ⟨.error (.JpegError "Image dimensions exceed limits"), true⟩
    else
      ⟨.ok (fillBuffer (hd.image_width * hd.image_height * 3) pix), true⟩

/-! ## GIF adapter (`decode_gif`, lib.rs lines 231-414)

The three in-Rust signature checks (length ≥ 6, `"GIF"`, version `"87a"` or
`"89a"`) precede any codec call.  The giflib open/slurp path (via the
`safe_DGifOpen` / `safe_DGifSlurp` C shim, whose source is outside `src/`)
is modelled as an oracle returning either a shim error message or the
slurped `GifFileType`.  The post-slurp pixel pipeline (color-map
resolution, CVE-2019-15133 / CVE-2016-3977 bounds checks, RGBA blit) is
pure Rust and is embedded verbatim. -/

structure GifColor where
  Red : Nat
  Green : Nat
  Blue : Nat
  deriving DecidableEq, Repr

/-- A giflib `ColorMapObject`: `ColorCount` is a C `int` (may be ≤ 0);
`Colors = none` models a NULL `Colors` pointer. -/
structure GifColorMap where
  ColorCount : Int
  Colors : Option (List GifColor)
  deriving DecidableEq, Repr

structure GifImageDesc where
  Left : Nat
  Top : Nat
  Width : Nat
  Height : Nat
  ColorMap : Option GifColorMap
  deriving DecidableEq, Repr

structure GifSavedImage where
  ImageDesc : GifImageDesc
  RasterBits : List Nat
  deriving DecidableEq, Repr

structure GifFileType where
  SWidth : Nat
  SHeight : Nat
  SColorMap : Option GifColorMap
  ImageCount : Nat
  SavedImages : List GifSavedImage
  deriving DecidableEq, Repr

def GifOracle := (List Nat) → Except String GifFileType

/-- One iteration of the inner copy loop of `decode_gif` for pixel `(y, x)`:
the out-of-buffer guard skips the pixel (`continue`), an out-of-range
palette index aborts the decode, otherwise the four RGBA bytes are
written. -/
def gifWritePixel (colorCount : Nat) (colors : List GifColor) (raster : List Nat)
    (imgWidth left top canvasWidth : Nat) (output : List Nat) (yx : Nat × Nat) :
    Except ImageHardenError (List Nat) :=
  let src_idx := yx.1 * imgWidth + yx.2
  let dst_x := left + yx.2
  let dst_y := top + yx.1
  let dst_idx := (dst_y * canvasWidth + dst_x) * 4
  if dst_idx + 3 ≥ output.length then .ok output
  else
    let color_idx := byteAt raster src_idx
    if color_idx ≥ colorCount then
      .error (.GifError "Color index out of range")
    else
      let c := colors.getD color_idx ⟨0, 0, 0⟩
      .ok ((((output.set dst_idx c.Red).set (dst_idx + 1) c.Green).set
        (dst_idx + 2) c.Blue).set (dst_idx + 3) 255)

/-- Row-major pixel order of the nested `for y { for x { .. } }` loops. -/
def pixelIndices (h w : Nat) : List (Nat × Nat) :=
  (List.range h).flatMap fun y => (List.range w).map fun x => (y, x)

def gifBlit (colorCount : Nat) (colors : List GifColor) (raster : List Nat)
    (imgWidth left top canvasWidth : Nat) :
    List (Nat × Nat) → List Nat → Except ImageHardenError (List Nat)
  | [], output => .ok output
  | p :: ps, output =>
    match gifWritePixel colorCount colors raster imgWidth left top canvasWidth output p with
    | .error e => .error e
    | .ok output2 => gifBlit colorCount colors raster imgWidth left top canvasWidth ps output2

/-- The `gif.ImageCount > 0` branch of `decode_gif`: resolve the color map
(local preferred, else global), validate `0 < ColorCount ≤ 256`, the
non-NULL `Colors` pointer, and the frame-within-canvas bounds, then blit
the first frame (`SavedImages.offset(0)`; giflib guarantees `ImageCount`
entries) into the canvas buffer `output`. -/
def gifDecodeFrame (gif : GifFileType) (output : List Nat) : Traced (List Nat) :=
  let image := gif.SavedImages.getD 0 ⟨⟨0, 0, 0, 0, none⟩, []⟩
  let d := image.ImageDesc
  match (match d.ColorMap with | some m => some m | none => gif.SColorMap) with
  | none => ⟨.error (.GifError "No color map found"), true⟩
  | some cmap =>
    if cmap.ColorCount ≤ 0 ∨ cmap.ColorCount > 256 then
      ⟨.error (.GifError "Invalid color count"), true⟩
    else
      match cmap.Colors with
      | none => ⟨.error (.GifError "Color map is NULL"), true⟩
      | some colors =>
        if d.Left + d.Width > gif.SWidth ∨ d.Top + d.Height > gif.SHeight then
          ⟨.error (.GifError "Image out of bounds"), true⟩
        else
          match gifBlit cmap.ColorCount.toNat colors image.RasterBits d.Width
              d.Left d.Top gif.SWidth (pixelIndices d.Height d.Width) output with
          | .error e => ⟨.error e, true⟩
          | .ok out => ⟨.ok out, true⟩

def decode_gif (lib : GifOracle) (data : List Nat) : Traced (List Nat) :=
  if data.length < 6 then ⟨.error (.GifError "File too small"), false⟩
  else if sliceEq data 0 gifB = false then
    ⟨.error (.GifError "Invalid GIF signature"), false⟩
  else if (sliceEq data 3 gif87B || sliceEq data 3 gif89B) = false then
    ⟨.error (.GifError "Unknown GIF version"), false⟩
  else
    match lib data with
    | .error _ => ⟨.error (.GifError "Failed to open or decode GIF"), true⟩
    | .ok gif =>
      let output : List Nat := List.replicate (gif.SWidth * gif.SHeight * 4) 0
      if gif.ImageCount > 0 then gifDecodeFrame gif output
      else ⟨.ok output, true⟩

/-! ## WebP adapter (`decode_webp`, lib.rs lines 418-465)

All five pre-decode checks are pure Rust; only then is the `webp` crate's
`Decoder` invoked (oracle).  The crate returns the decoded buffer directly
(`decoded.to_owned()`); its RGBA shape (`len = w*h*4`) is a property of the
foreign crate and appears as a hypothesis where needed. -/

structure WebpDecoded where
  width : Nat
  height : Nat
  bytes : List Nat

def WebpOracle := (List Nat) → Option WebpDecoded

def decode_webp (lib : WebpOracle) (data : List Nat) : Traced (List Nat) :=
  if data.length < 12 then ⟨.error (.WebPError "File too small"), false⟩
  else if sliceEq data 0 riffB = false then
    ⟨.error (.WebPError "Invalid WebP signature: missing RIFF header"), false⟩
  else if sliceEq data 8 webpB = false then
    ⟨.error (.WebPError "Invalid WebP signature: missing WEBP marker"), false⟩
  else if le32 data 4 + 8 ≠ data.length then
    ⟨.error (.WebPError "WebP size mismatch"), false⟩
  else if data.length > 50 * 1024 * 1024 then
    ⟨.error (.WebPError "WebP file too large"), false⟩
  else
    match lib data with
    | none => ⟨.error (.WebPError "WebP decoding failed"), true⟩
    | some d =>
      if d.width > 16384 ∨ d.height > 16384 then
        ⟨.error (.WebPError "WebP dimensions too large"), true⟩
      else ⟨.ok d.bytes, true⟩

/-! ## HEIF adapter (`decode_heif`, lib.rs lines 469-527)

Signature, brand and file-size checks are pure Rust; the libheif context /
handle / decode / plane stages are foreign and collapsed into one oracle
(the adapter maps each stage's failure to a `HeifError`; the dimension
check against 16384 sits between the handle and decode stages, but every
observable modelled here is unaffected by that interleaving). -/

def heifBrands : List (List Nat) :=
  [[104, 101, 105, 99], [104, 101, 105, 120], [109, 105, 102, 49],
   [109, 115, 102, 49], [104, 101, 118, 99], [104, 101, 118, 120]]

structure HeifImage where
  width : Nat
  height : Nat
  interleaved : List Nat

def HeifOracle := (List Nat) → Except String HeifImage

def decode_heif (lib : HeifOracle) (data : List Nat) : Traced (List Nat) :=
  if data.length < 12 then ⟨.error (.HeifError "File too small"), false⟩
  else if sliceEq data 4 ftypB = false then
    ⟨.error (.HeifError "Invalid HEIF signature: missing ftyp box"), false⟩
  else if (heifBrands.any fun b => sliceEq data 8 b) = false then
    ⟨.error (.HeifError "Unsupported HEIF brand"), false⟩
  else if data.length > 100 * 1024 * 1024 then
    ⟨.error (.HeifError "HEIF file too large"), false⟩
  else
    match lib data with
    | .error _ => ⟨.error (.HeifError "HEIF decoding failed"), true⟩
    | .ok img =>
      if img.width > 16384 ∨ img.height > 16384 then
        ⟨.error (.HeifError "HEIF dimensions too large"), true⟩
      else ⟨.ok img.interleaved, true⟩

/-! ## Audio adapters (lib.rs lines 630-877)

Constants: `MAX_AUDIO_FILE_SIZE = 100 MiB`, `MAX_AUDIO_DURATION_SECS = 600`,
`MAX_SAMPLE_RATE = 192000`, `MAX_CHANNELS = 8`.

`AudioData.duration_secs` is an `f64` derived from the other three fields
(`samples.len() / (rate*channels)` as floats) and is not modelled.  The
running duration quota check uses Rust *integer* division
(`total as u64 / (rate as u64 * ch as u64)`) and is embedded exactly;
Rust would panic on a zero divisor (a zero declared rate), where Lean's
`Nat` division yields 0 — no claim exercises that corner. -/

structure AudioData where
  samples : List Int
  sample_rate : Nat
  channels : Nat
  deriving DecidableEq, Repr

/-- One `minimp3` frame as surfaced by `Decoder::next_frame`. -/
structure Mp3Frame where
  samples : List Int
  rate : Nat
  channels : Nat
  deriving DecidableEq, Repr

/-- The foreign minimp3 decoder: the sequence of frames it yields before
Eof, plus whether it ends in a decode error instead of Eof. -/
structure Mp3Stream where
  frames : List Mp3Frame
  readErr : Bool
  deriving DecidableEq, Repr

def Mp3Oracle := (List Nat) → Mp3Stream

structure Mp3Acc where
  all_samples : List Int
  sample_rate : Nat
  channels : Nat
  total_samples : Nat
  deriving DecidableEq, Repr

/-- One iteration of the `decode_mp3` frame loop. -/
def mp3Step (st : Mp3Acc) (f : Mp3Frame) : Except ImageHardenError Mp3Acc :=
  if f.rate > 192000 then .error (.Mp3Error "Sample rate too high")
  else if f.channels > 8 then .error (.Mp3Error "Too many channels")
  else
    let sample_rate := if st.sample_rate = 0 then f.rate else st.sample_rate
    let channels := if st.sample_rate = 0 then f.channels else st.channels
    let total := st.total_samples + f.samples.length
    if total / (sample_rate * channels) > 600 then
      .error (.Mp3Error "Audio too long")
    else .ok ⟨st.all_samples ++ f.samples, sample_rate, channels, total⟩

def mp3Frames : List Mp3Frame → Mp3Acc → Except ImageHardenError Mp3Acc
  | [], st => .ok st
  | f :: fs, st =>
    match mp3Step st f with
    | .error e => .error e
    | .ok st2 => mp3Frames fs st2

def decode_mp3 (lib : Mp3Oracle) (data : List Nat) : Traced AudioData :=
  if data.length > 100 * 1024 * 1024 then
    ⟨.error (.Mp3Error "File too large"), false⟩
  else if data.length < 2 ∨ byteAt data 0 ≠ 255 ∨ byteAt data 1 &&& 224 ≠ 224 then
    ⟨.error (.Mp3Error "Invalid MP3 signature"), false⟩
  else
    let s := lib data
    match mp3Frames s.frames ⟨[], 0, 0, 0⟩ with
    | .error e => ⟨.error e, true⟩
    | .ok st =>
      if s.readErr then ⟨.error (.Mp3Error "Decode error"), true⟩
      else if st.all_samples.isEmpty then
        ⟨.error (.Mp3Error "No audio data decoded"), true⟩
      else ⟨.ok ⟨st.all_samples, st.sample_rate, st.channels⟩, true⟩

/-! ## Vorbis adapter (`decode_vorbis`, lib.rs lines 719-784) -/

/-- The lewton `OggStreamReader`: identification header plus the interleaved
packets it yields; `readErr` = a packet-read error terminating the loop. -/
structure VorbisStream where
  sample_rate : Nat
  channels : Nat
  packets : List (List Int)
  readErr : Bool
  deriving DecidableEq, Repr

def VorbisOracle := (List Nat) → Except String VorbisStream

structure AudAcc where
  acc : List Int
  total : Nat
  deriving DecidableEq, Repr

def vorbisStep (rate ch : Nat) (st : AudAcc) (packet : List Int) :
    Except ImageHardenError AudAcc :=
  let total := st.total + packet.length
  if total / (rate * ch) > 600 then .error (.VorbisError "Audio too long")
  else .ok ⟨st.acc ++ packet, total⟩

def vorbisPackets (rate ch : Nat) : List (List Int) → AudAcc →
    Except ImageHardenError AudAcc
  | [], st => .ok st
  | p :: ps, st =>
    match vorbisStep rate ch st p with
    | .error e => .error e
    | .ok st2 => vorbisPackets rate ch ps st2

def decode_vorbis (lib : VorbisOracle) (data : List Nat) : Traced AudioData :=
  if data.length > 100 * 1024 * 1024 then
    ⟨.error (.VorbisError "File too large"), false⟩
  else if data.length < 4 ∨ sliceEq data 0 oggB = false then
    ⟨.error (.VorbisError "Invalid Ogg signature"), false⟩
  else
    match lib data with
    | .error _ => ⟨.error (.VorbisError "Failed to initialize reader"), true⟩
    | .ok s =>
      if s.sample_rate > 192000 then
        ⟨.error (.VorbisError "Sample rate too high"), true⟩
      else if s.channels > 8 then
        ⟨.error (.VorbisError "Too many channels"), true⟩
      else
        match vorbisPackets s.sample_rate s.channels s.packets ⟨[], 0⟩ with
        | .error e => ⟨.error e, true⟩
        | .ok st =>
          if s.readErr then ⟨.error (.VorbisError "Decode error"), true⟩
          else if st.acc.isEmpty then
            ⟨.error (.VorbisError "No audio data decoded"), true⟩
          else ⟨.ok ⟨st.acc, s.sample_rate, s.channels⟩, true⟩

/-! ## FLAC adapter (`decode_flac`, lib.rs lines 787-859) -/

/-- Wrapping cast `as i16` of a Rust integer. -/
def wrap16 (s : Int) : Int := (s + 32768) % 65536 - 32768

/-- Sample conversion: `sample as i16` for depth ≤ 16, else
`(sample >> (bits - 16)) as i16` (arithmetic shift = flooring division). -/
def flacConvert (bits : Nat) (s : Int) : Int :=
  if bits ≤ 16 then wrap16 s else wrap16 (Int.fdiv s (2 ^ (bits - 16)))

/-- The claxon `FlacReader`: streaminfo plus the raw decoded samples;
`readErr` = a sample-read error terminating the loop. -/
structure FlacStream where
  sample_rate : Nat
  channels : Nat
  bits_per_sample : Nat
  samples : List Int
  readErr : Bool
  deriving DecidableEq, Repr

def FlacOracle := (List Nat) → Except String FlacStream

def flacStep (rate ch bits : Nat) (st : AudAcc) (s : Int) :
    Except ImageHardenError AudAcc :=
  let cnt := st.total + 1
  if cnt / (rate * ch) > 600 then .error (.FlacError "Audio too long")
  else .ok ⟨st.acc ++ [flacConvert bits s], cnt⟩

def flacSamples (rate ch bits : Nat) : List Int → AudAcc →
    Except ImageHardenError AudAcc
  | [], st => .ok st
  | s :: ss, st =>
    match flacStep rate ch bits st s with
    | .error e => .error e
    | .ok st2 => flacSamples rate ch bits ss st2

def decode_flac (lib : FlacOracle) (data : List Nat) : Traced AudioData :=
  if data.length > 100 * 1024 * 1024 then
    ⟨.error (.FlacError "File too large"), false⟩
  else if data.length < 4 ∨ sliceEq data 0 flacB = false then
    ⟨.error (.FlacError "Invalid FLAC signature"), false⟩
  else
    match lib data with
    | .error _ => ⟨.error (.FlacError "Failed to initialize reader"), true⟩
    | .ok s =>
      if s.sample_rate > 192000 then
        ⟨.error (.FlacError "Sample rate too high"), true⟩
      else if s.channels > 8 then
        ⟨.error (.FlacError "Too many channels"), true⟩
      else
        match flacSamples s.sample_rate s.channels s.bits_per_sample s.samples ⟨[], 0⟩ with
        | .error e => ⟨.error e, true⟩
        | .ok st =>
          if s.readErr then ⟨.error (.FlacError "Decode error"), true⟩
          else if st.acc.isEmpty then
            ⟨.error (.FlacError "No audio data decoded"), true⟩
          else ⟨.ok ⟨st.acc, s.sample_rate, s.channels⟩, true⟩

/-! ## Video container validation (lib.rs lines 900-1254)

Constants: `MAX_VIDEO_FILE_SIZE = 500 MiB`, `MAX_VIDEO_DURATION_SECS = 3600`,
`MAX_VIDEO_WIDTH = 3840`, `MAX_VIDEO_HEIGHT = 2160`, `MAX_VIDEO_TRACKS = 8`.

`VideoMetadata.duration_secs` is an `f64`; it is dropped from the embedded
record (no claim reads it) and each duration *comparison* is embedded as its
exact rational equivalent: `dur / ts > 3600.0` as `dur > 3600 * ts`, AVI's
`dur_us / 1.0e6 > 3600.0` as `dur_us > 3600 * 1000000`. -/

inductive VideoContainerFormat where
  | MP4
  | MKV
  | WebM
  | AVI
  | Unknown
  deriving DecidableEq, Repr

structure VideoMetadata where
  container_format : VideoContainerFormat
  width : Nat
  height : Nat
  video_tracks : Nat
  audio_tracks : Nat
  validated : Bool
  deriving DecidableEq, Repr

/-- mp4parse track classification (only `Video` and `Audio` are matched by
the Rust code; everything else falls into the wildcard arm). -/
inductive TrackType where
  | Video
  | Audio
  | Metadata
  | Unknown
  deriving DecidableEq, Repr

/-- `tkhd` box fields: unsigned 32-bit 16.16 fixed-point dimensions. -/
structure Tkhd where
  width : Nat
  height : Nat
  deriving DecidableEq, Repr

structure Mp4Track where
  track_type : TrackType
  tkhd : Option Tkhd
  duration : Option Nat
  timescale : Option Nat
  deriving DecidableEq, Repr

structure Mp4Context where
  tracks : List Mp4Track
  deriving DecidableEq, Repr

structure Mp4Acc where
  video_tracks : Nat
  audio_tracks : Nat
  max_width : Nat
  max_height : Nat
  deriving DecidableEq, Repr

/-- The per-video-track duration quota check (`duration / timescale > 3600`,
guarded by `timescale > 0`). -/
def mp4DurCheck (st : Mp4Acc) (t : Mp4Track) : Except ImageHardenError Mp4Acc :=
  match t.duration, t.timescale with
  | some d, some ts =>
    if ts > 0 ∧ d > 3600 * ts then .error (.VideoValidationError "Video too long")
    else .ok st
  | _, _ => .ok st

/-- One iteration of the `for track in &context.tracks` loop of
`validate_mp4_container`. -/
def mp4Track_step (st : Mp4Acc) (t : Mp4Track) : Except ImageHardenError Mp4Acc :=
  match t.track_type with
  | .Video =>
    let st := { st with video_tracks := st.video_tracks + 1 }
    match t.tkhd with
    | some k =>
      let w := k.width >>> 16
      let h := k.height >>> 16
      if w > 3840 then .error (.VideoValidationError "Video width too large")
      else if h > 2160 then .error (.VideoValidationError "Video height too large")
      else
        mp4DurCheck { st with max_width := max st.max_width w,
                              max_height := max st.max_height h } t
    | none => mp4DurCheck st t
  | .Audio => .ok { st with audio_tracks := st.audio_tracks + 1 }
  | _ => .ok st

def mp4Tracks : List Mp4Track → Mp4Acc → Except ImageHardenError Mp4Acc
  | [], st => .ok st
  | t :: ts, st =>
    match mp4Track_step st t with
    | .error e => .error e
    | .ok st2 => mp4Tracks ts st2

/-- The post-parse validation logic of `validate_mp4_container` (everything
after `read_mp4` returned a context). -/
def validate_mp4_logic (ctx : Mp4Context) : Except ImageHardenError VideoMetadata :=
  if ctx.tracks.length > 8 then .error (.VideoValidationError "Too many tracks")
  else
    match mp4Tracks ctx.tracks ⟨0, 0, 0, 0⟩ with
    | .error e => .error e
    | .ok st =>
      if st.video_tracks = 0 then
        .error (.VideoValidationError "No video tracks found in MP4")
      else
        .ok ⟨.MP4, st.max_width, st.max_height, st.video_tracks, st.audio_tracks, true⟩

/-- The foreign `mp4parse::read_mp4` parser. -/
def Mp4Parse := (List Nat) → Except String Mp4Context

def validate_mp4_container (parse : Mp4Parse) (data : List Nat) :
    Except ImageHardenError VideoMetadata :=
  match parse data with
  | .error _ => .error (.VideoContainerError "MP4 parsing failed")
  | .ok ctx => validate_mp4_logic ctx

/-! ### MKV / WebM (`validate_mkv_container`, lib.rs lines 1082-1153)

The matroska crate's parse result.  `durationMs` models `info.duration` in
milliseconds; the `as_secs_f64() > 3600.0` comparison is embedded as
`durationMs > 3600 * 1000`.  Note the Rust code never extracts per-track
dimensions: `max_width` / `max_height` stay 0 and are returned as-is, and
the returned `container_format` is `MKV` even for WebM input. -/

inductive Tracktype where
  | Video
  | Audio
  | Other
  deriving DecidableEq, Repr

structure MkvTrack where
  tracktype : Tracktype
  deriving DecidableEq, Repr

structure Matroska where
  tracks : List MkvTrack
  durationMs : Option Nat
  deriving DecidableEq, Repr

def isVideoTrack (t : MkvTrack) : Bool :=
  match t.tracktype with
  | .Video => true
  | _ => false

def isAudioTrack (t : MkvTrack) : Bool :=
  match t.tracktype with
  | .Audio => true
  | _ => false

def validate_mkv_logic (m : Matroska) : Except ImageHardenError VideoMetadata :=
  let video_tracks := m.tracks.countP isVideoTrack
  let audio_tracks := m.tracks.countP isAudioTrack
  if video_tracks + audio_tracks > 8 then
    .error (.VideoValidationError "Too many tracks")
  else if video_tracks = 0 then
    .error (.VideoValidationError "No video tracks found in MKV/WebM")
  else if m.durationMs.getD 0 > 3600 * 1000 then
    .error (.VideoValidationError "MKV video too long")
  else
    .ok ⟨.MKV, 0, 0, video_tracks, audio_tracks, true⟩

/-- The foreign `matroska::Matroska::open` parser. -/
def MkvParse := (List Nat) → Except String Matroska

def validate_mkv_container (parse : MkvParse) (data : List Nat) :
    Except ImageHardenError VideoMetadata :=
  match parse data with
  | .error _ => .error (.VideoContainerError "MKV/WebM parsing failed")
  | .ok m => validate_mkv_logic m

/-! ### AVI (`validate_avi_container`, lib.rs lines 1156-1254)

Fully pure Rust; embedded byte-for-byte.  The chunk walk is written with a
fuel argument instantiated at `data.length`, which strictly dominates the
loop's iteration count (each iteration requires `pos + 8 ≤ data.length` and
advances `pos` by at least 8, so at most `data.length / 8 + 1` iterations
run); fuel exhaustion and loop exit both yield `none`. -/

def aviFindAvih (data : List Nat) : Nat → Nat → Option (Nat × Nat × Nat)
  | 0, _ => none
  | fuel + 1, pos =>
    if pos + 8 ≤ data.length then
      let csize := le32 data (pos + 4)
      if data.length < pos + 8 + csize then none
      else if sliceEq data pos avihB && decide (56 ≤ csize) then
        some (le32 data (pos + 8), le32 data (pos + 8 + 32), le32 data (pos + 8 + 36))
      else
        aviFindAvih data fuel (pos + 8 + csize + (if csize % 2 = 1 then 1 else 0))
    else none

def validate_avi_container (data : List Nat) : Except ImageHardenError VideoMetadata :=
  if data.length < 12 ∨ sliceEq data 0 riffB = false ∨ sliceEq data 8 aviSpaceB = false then
    .error (.VideoValidationError "Invalid AVI signature")
  else if le32 data 4 + 8 ≠ data.length then
    .error (.VideoValidationError "AVI RIFF size mismatch")
  else
    match aviFindAvih data data.length 12 with
    | none => .error (.VideoValidationError "No AVI header (avih) found")
    | some (dur_us, w, h) =>
      if w > 3840 then .error (.VideoValidationError "AVI width too large")
      else if h > 2160 then .error (.VideoValidationError "AVI height too large")
      else if dur_us > 3600 * 1000000 then
        .error (.VideoValidationError "AVI video too long")
      else
        -- `video_tracks: 1, audio_tracks: 0` are hardcoded in the source;
        -- no stream enumeration is performed.
        .ok ⟨.AVI, w, h, 1, 0, true⟩

/-- Does the four-byte sequence `pat` occur anywhere in `data`?  (Used to
state that a concrete AVI carries no `strh` stream-header chunk.) -/
def containsSeq (data pat : List Nat) : Bool :=
  (List.range data.length).any fun i => sliceEq data i pat

/-! ### Dispatch (`detect_video_format` / `validate_video_container`,
lib.rs lines 929-985)

`detect_video_format` always returns `Ok` in Rust; it is embedded as a plain
function.  In the EBML branch Rust slices `&data[0..50]` whenever
`data.len() >= 20` — for 20 ≤ len < 50 that slice panics; the model reads
`data.take 50` instead (no claim exercises that corner). -/

def detect_video_format (data : List Nat) : VideoContainerFormat :=
  if data.length < 12 then .Unknown
  else if sliceEq data 4 ftypB then .MP4
  else if sliceEq data 0 ebmlB then
    if 20 ≤ data.length ∧ containsSeq (data.take 50) webmB then .WebM else .MKV
  else if sliceEq data 0 riffB && sliceEq data 8 aviSpaceB then .AVI
  else .Unknown

def validate_video_container (mp4p : Mp4Parse) (mkvp : MkvParse) (data : List Nat) :
    Except ImageHardenError VideoMetadata :=
  if data.length > 500 * 1024 * 1024 then
    .error (.VideoValidationError "Video file too large")
  else if data.length < 12 then
    .error (.VideoValidationError "Video file too small")
  else
    match detect_video_format data with
    | .MP4 => validate_mp4_container mp4p data
    | .MKV => validate_mkv_container mkvp data
    | .WebM => validate_mkv_container mkvp data
    | .AVI => validate_avi_container data
    | .Unknown => .error (.VideoValidationError "Unknown or unsupported video container format")

/-! ## CLI isolation envelope (`src/main.rs`)

The parent/child protocol is modelled as a pure function of the argument
vector, the extension `Path::extension(path)` yields, the result of reading
the input file, and an oracle bundle for the four decoders `decode_image`
dispatches to (each returning the decoded buffer).  OS-level effects that
the Rust code `unwrap()`s (pipe creation, clone, waitpid, landlock/seccomp
installation) are modelled as succeeding.

Key observables, read off `main.rs`:
- `child_process` returns 0 and writes the decimal decoded length to the
  pipe on success, returns 1 and writes nothing on any decode error
  (lines 88-109);
- `main` itself returns `()` on every path except `--health-check`, which
  calls `process::exit(0)` / `exit(1)`; hence the parent's process exit code
  is 0 for success, decode failure, unsupported extension and argument
  errors alike (lines 14-86);
- an unsupported extension surfaces as
  `JpegError("Unsupported file type")` from `decode_image` (line 126). -/

structure CliOracles where
  png : (List Nat) → Except ImageHardenError (List Nat)
  jpeg : (List Nat) → Except ImageHardenError (List Nat)
  svg : (List Nat) → Except ImageHardenError (List Nat)
  video : (List Nat) → Except ImageHardenError (List Nat)

/-- `decode_image` (main.rs lines 111-131): open/read the file (`rf`), then
dispatch on the file extension; unknown extensions are rejected with
`JpegError("Unsupported file type")`. -/
def decode_image (o : CliOracles) (e : Option String) (rf : Except Unit (List Nat)) :
    Except ImageHardenError Nat :=
  match rf with
  | .error _ => .error .IoError
  | .ok bytes =>
    if e = some "png" then (o.png bytes).map List.length
    else if e = some "jpg" ∨ e = some "jpeg" then (o.jpeg bytes).map List.length
    else if e = some "svg" then (o.svg bytes).map List.length
    else if e = some "mp4" then (o.video bytes).map List.length
    else .error (.JpegError "Unsupported file type")

/-- The extensions `decode_image` dispatches on. -/
def supportedExt (e : Option String) : Bool :=
  e == some "png" || e == some "jpg" || e == some "jpeg" || e == some "svg" ||
    e == some "mp4"

/-- `child_process` (main.rs lines 88-109): returns the child's exit status
and what it wrote to the result pipe. -/
def child_process (o : CliOracles) (e : Option String) (rf : Except Unit (List Nat)) :
    Nat × Option String :=
  match decode_image o e rf with
  | .ok len => (0, some (toString len))
  | .error _ => (1, none)

/-- `perform_health_check` (main.rs lines 197-208): allocates a 1024-byte
buffer and checks its length — it can never fail. -/
def perform_health_check : Except String Unit :=
  let test_buffer : List Nat := List.replicate 1024 0
  if test_buffer.length ≠ 1024 then .error "Memory allocation failed" else .ok ()

/-- Observable outcome of one CLI invocation: the parent's process exit code
and what the child wrote to the result pipe (if a child ran at all). -/
structure CliRun where
  exitCode : Nat
  childWrote : Option String
  deriving DecidableEq, Repr

/-- `main` (main.rs lines 14-86).  `e` is `Path::extension(args[1])`. -/
def cli_run (o : CliOracles) (args : List String) (e : Option String)
    (rf : Except Unit (List Nat)) : CliRun :=
  if args.length = 2 ∧ (args.getD 1 "" = "--version" ∨ args.getD 1 "" = "-v") then
    ⟨0, none⟩
  else if args.length = 2 ∧
      (args.getD 1 "" = "--health-check" ∨ args.getD 1 "" = "--health") then
    match perform_health_check with
    | .ok _ => ⟨0, none⟩
    | .error _ => ⟨1, none⟩
  else if args.length = 2 ∧ (args.getD 1 "" = "--help" ∨ args.getD 1 "" = "-h") then
    ⟨0, none⟩
  else if args.length ≠ 2 then ⟨0, none⟩
  else
    -- Parent forks the sandboxed child, waits, prints, and returns ();
    -- the parent's own exit code is 0 regardless of the child's status.
    ⟨0, (child_process o e rf).2⟩

/-! ## Concrete instances

Concrete inputs and concrete codec oracles used by the counterexample and
witness theorems below. -/

/-- The §4.1 spec table signature for PNG (spec-derived, for stating the
magic-byte claims; the Rust `decode_png` contains no such check). -/
def specPngSignature : List Nat := [137, 80, 78, 71, 13, 10, 26, 10]

/-- The §4.1 spec table signature for JPEG. -/
def specJpegSignature : List Nat := [255, 216]

/-- The spec §6 dimension quota for "other" still-image formats (GIF
included): 16384 × 16384.  The Rust `decode_gif` enforces no such quota. -/
def specOtherMaxDim : Nat := 16384

/-- Eight zero bytes: matches no §4.1 signature. -/
def zeroBytes : List Nat := [0, 0, 0, 0, 0, 0, 0, 0]

def pngLibNone : PngOracle := fun _ => none

def jpegLibNone : JpegOracle := fun _ => none

/-- A libjpeg behaviour: header reports a 1×1 image, three RGB bytes are
written to the scanline buffer. -/
def jpegLib1x1 : JpegOracle := fun _ => some (⟨1, 1⟩, [10, 20, 30])

/-- `FF D8` — a JPEG SOI prefix. -/
def jpegBytes : List Nat := [255, 216]

/-- The six signature bytes `GIF89a`. -/
def gifBytes89 : List Nat := [71, 73, 70, 56, 57, 97]

/-- A giflib behaviour: slurp succeeds, 2×3 canvas, zero image frames. -/
def gifLibEmpty : GifOracle := fun _ => .ok ⟨2, 3, none, 0, []⟩

/-- A giflib behaviour: slurp succeeds with the maximal 65535×65535 canvas
(the GIF screen descriptor stores dimensions as u16) and zero frames. -/
def gifLibHuge : GifOracle := fun _ => .ok ⟨65535, 65535, none, 0, []⟩

def webpLibNone : WebpOracle := fun _ => none

/-- A 12-byte RIFF/WEBP file whose declared RIFF size 0 violates
`declared + 8 = len` (0 + 8 ≠ 12). -/
def webpBad : List Nat := [82, 73, 70, 70, 0, 0, 0, 0, 87, 69, 66, 80]

/-- A 12-byte RIFF/AVI file with the same size mismatch. -/
def aviBad : List Nat := [82, 73, 70, 70, 0, 0, 0, 0, 65, 86, 73, 32]

/-- `FF FB ...`: valid MPEG frame sync. -/
def mp3SyncBytes : List Nat := [255, 251, 144, 0]

/-- A minimp3 behaviour: one frame declaring exactly 192000 Hz, stereo. -/
def mp3Lib192 : Mp3Oracle := fun _ => ⟨[⟨[0, 0, 0, 0], 192000, 2⟩], false⟩

/-- A minimp3 behaviour: one frame declaring 192001 Hz. -/
def mp3Lib192001 : Mp3Oracle := fun _ => ⟨[⟨[0, 0, 0, 0], 192001, 2⟩], false⟩

/-- A minimp3 behaviour: one mono frame at the 192 kHz boundary. -/
def mp3Lib192Mono : Mp3Oracle := fun _ => ⟨[⟨[5], 192000, 1⟩], false⟩

/-- The parsed context of the claim-C3 MP4: one video track with
`tkhd.width = 0x10000000`, `tkhd.height = 0x08700000` (4096×2160 after the
16.16 shift). -/
def c3Context : Mp4Context :=
  ⟨[⟨.Video, some ⟨0x10000000, 0x08700000⟩, none, none⟩]⟩

/-- Twelve bytes with an `ftyp` box at offset 4 (brand `isom`), so
`detect_video_format` classifies the input as MP4. -/
def c3Bytes : List Nat := [0, 0, 0, 20, 102, 116, 121, 112, 105, 115, 111, 109]

/-- An mp4parse behaviour returning the claim-C3 context. -/
def c3Mp4Parse : Mp4Parse := fun _ => .ok c3Context

def mp4ParseNone : Mp4Parse := fun _ => .error "unused"

def mkvParseNone : MkvParse := fun _ => .error "unused"

/-- Twelve bytes starting with the EBML magic `1A 45 DF A3`. -/
def mkvBytes : List Nat := [26, 69, 223, 163, 0, 0, 0, 0, 0, 0, 0, 0]

/-- A matroska behaviour: one video track, no duration. -/
def mkvLibOne : MkvParse := fun _ => .ok ⟨[⟨Tracktype.Video⟩], none⟩

/-- A structurally complete 76-byte AVI: correct RIFF size (68), a 56-byte
`avih` header declaring 1×1 at 0 µs/frame, and **no** stream (`strh`)
chunks anywhere. -/
def aviNoStreams : List Nat :=
  [82, 73, 70, 70, 68, 0, 0, 0, 65, 86, 73, 32, 97, 118, 105, 104, 56, 0, 0, 0] ++
    List.replicate 32 0 ++ [1, 0, 0, 0, 1, 0, 0, 0] ++ List.replicate 16 0

/-- A decoder bundle for the CLI model in which every decode succeeds. -/
def cliOraclesOk : CliOracles :=
  ⟨fun _ => .ok [], fun _ => .ok [], fun _ => .ok [], fun _ => .ok []⟩

/-! ## Helper lemmas -/

theorem fillBuffer_length (len : Nat) (w : List Nat) :
    (fillBuffer len w).length = len := by
  simp [fillBuffer]

theorem perform_health_check_ok : perform_health_check = .ok () := by
  have h : ¬ (List.replicate 1024 (0 : Nat)).length ≠ 1024 := by
    rw [List.length_replicate]
    omega
  unfold perform_health_check
  exact if_neg h

/-! ## Claim C2 -/

/-- Claim C2 (counterexample): `decode_jpeg` can succeed returning a buffer
of 3 bytes for a 1×1 image — not the 4 bytes per pixel the claim asserts;
no alpha padding exists in the adapter. -/
theorem C2_counterexample :
    (decode_jpeg jpegLib1x1 jpegBytes).res = .ok [10, 20, 30] ∧
    ([10, 20, 30] : List Nat).length ≠ 1 * 1 * 4 := by
  exact ⟨rfl, by decide⟩

/-- Claim C2 (corrected): for every input on which `decode_jpeg` succeeds,
the returned buffer is the RGB output forced from libjpeg with NO alpha
padding, so its length is `width * height * 3` (not `* 4`). -/
theorem C2_jpeg_output_is_rgb (lib : JpegOracle) (data : List Nat)
    (hd : JpegHeader) (pix : List Nat) (hlib : lib data = some (hd, pix))
    (hw : hd.image_width ≤ 10000) (hh : hd.image_height ≤ 10000) :
    ∃ out, (decode_jpeg lib data).res = .ok out ∧
      out.length = hd.image_width * hd.image_height * 3 := by
  have hno : ¬ (hd.image_width > 10000 ∨ hd.image_height > 10000) := by omega
  refine ⟨fillBuffer (hd.image_width * hd.image_height * 3) pix, ?_,
    fillBuffer_length _ _⟩
  simp [decode_jpeg, hlib, hno]

/-- Witness for C2_jpeg_output_is_rgb at the concrete 1×1 oracle. -/
theorem C2_jpeg_output_is_rgb_witness :
    ∃ out, (decode_jpeg jpegLib1x1 jpegBytes).res = .ok out ∧
      out.length = 1 * 1 * 3 :=
  C2_jpeg_output_is_rgb jpegLib1x1 jpegBytes ⟨1, 1⟩ [10, 20, 30] rfl
    (by decide) (by decide)

/-! ## Claim C3 -/

/-- Claim C3 (counterexample): the 4096×2160 MP4 of spec scenario E is
REJECTED, not accepted: 4096 exceeds `MAX_VIDEO_WIDTH = 3840`, so
`validate_video_container` returns the width error instead of Ok metadata. -/
theorem C3_counterexample :
    (0x10000000 : Nat) >>> 16 = 4096 ∧ (0x08700000 : Nat) >>> 16 = 2160 ∧
    validate_video_container c3Mp4Parse mkvParseNone c3Bytes =
      .error (.VideoValidationError "Video width too large") := by
  exact ⟨by decide, by decide, rfl⟩

/-- Claim C3 (corrected): the scenario-E MP4 (one video track,
`tkhd.width = 0x10000000`, `height = 0x08700000`) yields the
dimension-exceeded error because 4096 > 3840; at the quota boundary
(`tkhd.width = 0x0F000000`, i.e. 3840) the same pipeline returns Ok
metadata 3840×2160. -/
theorem C3_mp4_width_quota :
    validate_video_container c3Mp4Parse mkvParseNone c3Bytes =
      .error (.VideoValidationError "Video width too large") ∧
    validate_mp4_logic ⟨[⟨.Video, some ⟨0x0F000000, 0x08700000⟩, none, none⟩]⟩ =
      .ok ⟨.MP4, 3840, 2160, 1, 0, true⟩ := by
  exact ⟨rfl, rfl⟩

/-! ## Claim C4 -/

/-- Claim C4 (counterexample): an MP3 with valid frame sync whose frame
declares exactly 192000 Hz decodes successfully — no SampleRateExceeded
error is raised at the boundary. -/
theorem C4_counterexample :
    (decode_mp3 mp3Lib192 mp3SyncBytes).res = .ok ⟨[0, 0, 0, 0], 192000, 2⟩ := by
  exact rfl

/-- Claim C4 (corrected): the `rate > MAX_SAMPLE_RATE` check is strict, so
the 192000 Hz boundary is ACCEPTED (the maximum is inclusive as a permitted
value); only rates strictly above 192000 — e.g. 192001 — produce the
sample-rate error. -/
theorem C4_mp3_rate_bound_exclusive :
    (∀ (lib : Mp3Oracle) (data : List Nat) (s : List Int) (ch : Nat),
      data.length ≤ 100 * 1024 * 1024 → 2 ≤ data.length →
      byteAt data 0 = 255 → byteAt data 1 &&& 224 = 224 →
      lib data = ⟨[⟨s, 192000, ch⟩], false⟩ → ch ≤ 8 → s ≠ [] →
      s.length / (192000 * ch) ≤ 600 →
      (decode_mp3 lib data).res = .ok ⟨s, 192000, ch⟩) ∧
    (decode_mp3 mp3Lib192001 mp3SyncBytes).res =
      .error (.Mp3Error "Sample rate too high") := by
  constructor
  · intro lib data s ch hsize hlen h0 h1 hlib hch hs hdur
    have hbig : ¬ data.length > 100 * 1024 * 1024 := by omega
    have hsig : ¬ (data.length < 2 ∨ byteAt data 0 ≠ 255 ∨
        byteAt data 1 &&& 224 ≠ 224) := by
      push_neg
      exact ⟨by omega, h0, h1⟩
    have hrate : ¬ (192000 : Nat) > 192000 := by omega
    have hch8 : ¬ ch > 8 := by omega
    have hdur2 : ¬ 600 < s.length / (192000 * ch) := by omega
    simp [decode_mp3, hbig, hsig, hlib, mp3Frames, mp3Step, hrate, hch8, hdur2, hs]
  · exact rfl

/-- Witness for C4_mp3_rate_bound_exclusive: mono boundary-rate stream. -/
theorem C4_mp3_rate_bound_exclusive_witness :
    (decode_mp3 mp3Lib192Mono mp3SyncBytes).res = .ok ⟨[5], 192000, 1⟩ :=
  C4_mp3_rate_bound_exclusive.1 mp3Lib192Mono mp3SyncBytes [5] 1
    (by decide) (by decide) (by decide) (by decide) rfl (by decide)
    (by decide) (by decide)

/-! ## Claim C9 -/

/-- Claim C9 (confirmed): a GIF whose signature checks pass and whose slurp
succeeds with `ImageCount = 0` decodes to Ok with the fully transparent
zeroed canvas buffer of `SWidth * SHeight * 4` bytes. -/
theorem C9_gif_zero_frames (lib : GifOracle) (data : List Nat) (g : GifFileType)
    (h6 : ¬ data.length < 6) (hsig : sliceEq data 0 gifB = true)
    (hver : (sliceEq data 3 gif87B || sliceEq data 3 gif89B) = true)
    (hlib : lib data = .ok g) (h0 : g.ImageCount = 0) :
    (decode_gif lib data).res = .ok (List.replicate (g.SWidth * g.SHeight * 4) 0) := by
  simp [decode_gif, h6, hsig, hver, hlib, h0]

/-- Witness for C9_gif_zero_frames on a concrete zero-frame 2×3 GIF. -/
theorem C9_gif_zero_frames_witness :
    (decode_gif gifLibEmpty gifBytes89).res = .ok (List.replicate (2 * 3 * 4) 0) :=
  C9_gif_zero_frames gifLibEmpty gifBytes89 ⟨2, 3, none, 0, []⟩ (by decide)
    (by decide) (by decide) rfl rfl

/-! ## Claim C10 -/

theorem validate_mkv_logic_dims (m : Matroska) (md : VideoMetadata)
    (h : validate_mkv_logic m = .ok md) : md.width = 0 ∧ md.height = 0 := by
  simp only [validate_mkv_logic] at h
  split_ifs at h
  all_goals first
  | exact Except.noConfusion h
  | (injection h with h2
     rw [← h2]
     exact ⟨rfl, rfl⟩)

/-- Claim C10 (confirmed): every MKV/WebM input accepted by
`validate_video_container` yields metadata with `width = 0` and
`height = 0` — per-track pixel dimensions are never extracted and never
checked against the quotas. -/
theorem C10_mkv_dims_always_zero (mp4p : Mp4Parse) (mkvp : MkvParse)
    (data : List Nat) (md : VideoMetadata)
    (hfmt : detect_video_format data = .MKV ∨ detect_video_format data = .WebM)
    (h : validate_video_container mp4p mkvp data = .ok md) :
    md.width = 0 ∧ md.height = 0 := by
  simp only [validate_video_container] at h
  split_ifs at h
  rcases hfmt with hfmt | hfmt <;>
    rw [hfmt] at h <;>
    simp only [validate_mkv_container] at h <;>
    rcases hp : mkvp data with e | m <;>
    rw [hp] at h
  · exact Except.noConfusion h
  · exact validate_mkv_logic_dims m md h
  · exact Except.noConfusion h
  · exact validate_mkv_logic_dims m md h

/-- Witness for C10_mkv_dims_always_zero on a concrete one-track MKV. -/
theorem C10_mkv_dims_always_zero_witness :
    (⟨.MKV, 0, 0, 1, 0, true⟩ : VideoMetadata).width = 0 ∧
    (⟨.MKV, 0, 0, 1, 0, true⟩ : VideoMetadata).height = 0 :=
  C10_mkv_dims_always_zero mp4ParseNone mkvLibOne mkvBytes ⟨.MKV, 0, 0, 1, 0, true⟩
    (Or.inl rfl) rfl

/-! ## Claim C5 -/

/-- Claim C5 (counterexample): invoked on a file with an unsupported
extension the CLI process exits 0 — not 2.  (The child writes nothing to
the pipe, the parent prints the generic failure line and `main` returns
normally.) -/
theorem C5_counterexample :
    (cli_run cliOraclesOk ["cli", "file.xyz"] (some "xyz") (.ok [1, 2, 3])).exitCode
        = 0 ∧
    (cli_run cliOraclesOk ["cli", "file.xyz"] (some "xyz") (.ok [1, 2, 3])).childWrote
        = none := by
  exact ⟨rfl, rfl⟩

/-- Claim C5 (corrected): the parent CLI process exits 0 on every path —
success, decode failure, unsupported extension and argument error alike
(only `--health-check` can exit non-zero, and its check cannot fail); exit
code 2 is never produced.  On an unsupported extension it is the sandboxed
child that exits 1, writing nothing to the result pipe. -/
theorem C5_exit_codes :
    (∀ (o : CliOracles) (args : List String) (e : Option String)
        (rf : Except Unit (List Nat)), (cli_run o args e rf).exitCode = 0) ∧
    (∀ (o : CliOracles) (e : Option String) (rf : Except Unit (List Nat)),
      supportedExt e = false → child_process o e rf = (1, none)) := by
  constructor
  · intro o args e rf
    unfold cli_run
    split_ifs <;> simp [perform_health_check_ok]
  · intro o e rf h
    simp only [supportedExt, Bool.or_eq_false_iff, beq_eq_false_iff_ne, ne_eq] at h
    obtain ⟨⟨⟨⟨h1, h2⟩, h3⟩, h4⟩, h5⟩ := h
    unfold child_process decode_image
    cases rf with
    | error u => rfl
    | ok bytes => simp [h1, h2, h3, h4, h5]

/-- Witness for C5_exit_codes: argument-error run exits 0; unsupported
extension makes the child exit 1 with an empty pipe. -/
theorem C5_exit_codes_witness :
    (cli_run cliOraclesOk ["cli"] none (.ok [])).exitCode = 0 ∧
    child_process cliOraclesOk (some "xyz") (.ok [1, 2, 3]) = (1, none) :=
  ⟨C5_exit_codes.1 cliOraclesOk ["cli"] none (.ok []),
   C5_exit_codes.2 cliOraclesOk (some "xyz") (.ok [1, 2, 3]) (by decide)⟩

/-! ## Claim C6 -/

/-- Claim C6 (confirmed): for every RIFF-signature input (WebP or AVI)
whose declared RIFF size plus 8 differs from the byte length, the
operation fails with the size-mismatch structural error and the downstream
decoder is never invoked.  (The third conjunct lifts the AVI case through
`validate_video_container`; the `¬ ftyp` hypothesis excludes the freak
input whose little-endian size field happens to spell `ftyp`, which the
format detector would route to the MP4 parser.) -/
theorem C6_riff_size_closure :
    (∀ (lib : WebpOracle) (data : List Nat), 12 ≤ data.length →
      sliceEq data 0 riffB = true → sliceEq data 8 webpB = true →
      le32 data 4 + 8 ≠ data.length →
      (decode_webp lib data).res = .error (.WebPError "WebP size mismatch") ∧
      (decode_webp lib data).codecCalled = false) ∧
    (∀ data : List Nat, 12 ≤ data.length →
      sliceEq data 0 riffB = true → sliceEq data 8 aviSpaceB = true →
      le32 data 4 + 8 ≠ data.length →
      validate_avi_container data =
        .error (.VideoValidationError "AVI RIFF size mismatch")) ∧
    (∀ (mp4p : Mp4Parse) (mkvp : MkvParse) (data : List Nat),
      12 ≤ data.length → data.length ≤ 500 * 1024 * 1024 →
      sliceEq data 0 riffB = true → sliceEq data 8 aviSpaceB = true →
      sliceEq data 4 ftypB = false → le32 data 4 + 8 ≠ data.length →
      validate_video_container mp4p mkvp data =
        .error (.VideoValidationError "AVI RIFF size mismatch")) := by
  have avi : ∀ data : List Nat, 12 ≤ data.length →
      sliceEq data 0 riffB = true → sliceEq data 8 aviSpaceB = true →
      le32 data 4 + 8 ≠ data.length →
      validate_avi_container data =
        .error (.VideoValidationError "AVI RIFF size mismatch") := by
    intro data hlen hr ha hmm
    have hsig : ¬ (data.length < 12 ∨ sliceEq data 0 riffB = false ∨
        sliceEq data 8 aviSpaceB = false) := by
      push_neg
      refine ⟨by omega, by simp [hr], by simp [ha]⟩
    simp [validate_avi_container, hsig, hmm]
  refine ⟨?_, avi, ?_⟩
  · intro lib data hlen hr hw hmm
    have h12 : ¬ data.length < 12 := by omega
    constructor <;> simp [decode_webp, h12, hr, hw, hmm]
  · intro mp4p mkvp data hlen hsize hr ha hft hmm
    have hbig : ¬ data.length > 500 * 1024 * 1024 := by omega
    have h12 : ¬ data.length < 12 := by omega
    have hb0 : byteAt data 0 = 82 := by
      simp [sliceEq, Bool.and_eq_true, beq_iff_eq] at hr
      exact hr.1
    have hebml : sliceEq data 0 ebmlB = false := by
      simp [sliceEq, ebmlB, hb0]
    have hdet : detect_video_format data = .AVI := by
      simp [detect_video_format, h12, hft, hebml, hr, ha]
    simp [validate_video_container, hbig, h12, hdet, avi data hlen hr ha hmm]

/-- Witness for C6_riff_size_closure on concrete 12-byte mismatched
RIFF/WEBP and RIFF/AVI inputs. -/
theorem C6_riff_size_closure_witness :
    (decode_webp webpLibNone webpBad).res =
      .error (.WebPError "WebP size mismatch") ∧
    validate_avi_container aviBad =
      .error (.VideoValidationError "AVI RIFF size mismatch") :=
  ⟨(C6_riff_size_closure.1 webpLibNone webpBad (by decide) (by decide) (by decide)
      (by decide)).1,
   C6_riff_size_closure.2.1 aviBad (by decide) (by decide) (by decide) (by decide)⟩

/-! ## Claim C7 -/

theorem mp4Tracks_no_video (ts : List Mp4Track) (st : Mp4Acc)
    (h : ∀ t ∈ ts, t.track_type ≠ TrackType.Video) :
    ∃ st2, mp4Tracks ts st = .ok st2 ∧ st2.video_tracks = st.video_tracks := by
  induction ts generalizing st with
  | nil => exact ⟨st, rfl, rfl⟩
  | cons t ts ih =>
    have ht := h t (by simp)
    have hrest : ∀ u ∈ ts, u.track_type ≠ TrackType.Video := fun u hu =>
      h u (by simp [hu])
    cases htt : t.track_type with
    | Video => exact absurd htt ht
    | Audio =>
      obtain ⟨st2, h1, h2⟩ := ih { st with audio_tracks := st.audio_tracks + 1 } hrest
      exact ⟨st2, by simp [mp4Tracks, mp4Track_step, htt, h1], by simp [h2]⟩
    | Metadata =>
      obtain ⟨st2, h1, h2⟩ := ih st hrest
      exact ⟨st2, by simp [mp4Tracks, mp4Track_step, htt, h1], h2⟩
    | Unknown =>
      obtain ⟨st2, h1, h2⟩ := ih st hrest
      exact ⟨st2, by simp [mp4Tracks, mp4Track_step, htt, h1], h2⟩

/-- Claim C7 (counterexample): a structurally complete AVI containing zero
stream-header (`strh`) chunks — hence zero video tracks — is ACCEPTED by
`validate_video_container`, with `video_tracks` reported as 1. -/
theorem C7_counterexample :
    containsSeq aviNoStreams strhB = false ∧
    validate_video_container mp4ParseNone mkvParseNone aviNoStreams =
      .ok ⟨.AVI, 1, 1, 1, 0, true⟩ := by
  exact ⟨by decide, rfl⟩

/-- Claim C7 (corrected): the MP4 and MKV/WebM validators do reject
containers with zero video tracks, but the AVI validator performs no track
counting at all: whenever it returns Ok the metadata carries the hardcoded
`video_tracks = 1` and `audio_tracks = 0`, regardless of the actual
streams present. -/
theorem C7_zero_video_tracks :
    (∀ ctx : Mp4Context, (∀ t ∈ ctx.tracks, t.track_type ≠ TrackType.Video) →
      ∃ m, validate_mp4_logic ctx = .error (.VideoValidationError m)) ∧
    (∀ mk : Matroska, (∀ t ∈ mk.tracks, t.tracktype ≠ Tracktype.Video) →
      ∃ m, validate_mkv_logic mk = .error (.VideoValidationError m)) ∧
    (∀ (data : List Nat) (md : VideoMetadata),
      validate_avi_container data = .ok md →
      md.video_tracks = 1 ∧ md.audio_tracks = 0) := by
  refine ⟨?_, ?_, ?_⟩
  · intro ctx h
    by_cases hlen : ctx.tracks.length > 8
    · exact ⟨"Too many tracks", by simp [validate_mp4_logic, hlen]⟩
    · obtain ⟨st2, h1, h2⟩ := mp4Tracks_no_video ctx.tracks ⟨0, 0, 0, 0⟩ h
      exact ⟨"No video tracks found in MP4", by simp [validate_mp4_logic, hlen, h1, h2]⟩
  · intro mk h
    have hv : mk.tracks.countP isVideoTrack = 0 := by
      rw [List.countP_eq_zero]
      intro t ht
      have := h t ht
      cases htt : t.tracktype <;> simp [isVideoTrack, htt]
      exact this htt
    by_cases hlen : mk.tracks.countP isVideoTrack + mk.tracks.countP isAudioTrack > 8
    · exact ⟨"Too many tracks", by simp [validate_mkv_logic, hlen]⟩
    · have h8 := hlen
      rw [hv] at h8
      exact ⟨"No video tracks found in MKV/WebM",
        by simp [validate_mkv_logic, hlen, hv]; omega⟩
  · intro data md h
    simp only [validate_avi_container] at h
    split_ifs at h
    rcases hfind : aviFindAvih data data.length 12 with _ | ⟨dur, w, hgt⟩ <;>
      rw [hfind] at h
    · exact Except.noConfusion h
    · dsimp only at h
      split_ifs at h
      injection h with h2
      rw [← h2]
      exact ⟨rfl, rfl⟩

/-- Witness for C7_zero_video_tracks: an empty MP4 context is rejected; the
stream-less AVI metadata reports one video track and zero audio tracks. -/
theorem C7_zero_video_tracks_witness :
    (∃ m, validate_mp4_logic ⟨[]⟩ = .error (.VideoValidationError m)) ∧
    (⟨.AVI, 1, 1, 1, 0, true⟩ : VideoMetadata).video_tracks = 1 ∧
    (⟨.AVI, 1, 1, 1, 0, true⟩ : VideoMetadata).audio_tracks = 0 :=
  ⟨C7_zero_video_tracks.1 ⟨[]⟩ (by simp),
   C7_zero_video_tracks.2.2 aviNoStreams ⟨.AVI, 1, 1, 1, 0, true⟩ rfl⟩

/-! ## Claim C8 -/

theorem gifWritePixel_length (cc : Nat) (cs : List GifColor) (r : List Nat)
    (iw l t cw : Nat) (out : List Nat) (p : Nat × Nat) (out2 : List Nat)
    (h : gifWritePixel cc cs r iw l t cw out p = .ok out2) :
    out2.length = out.length := by
  simp only [gifWritePixel] at h
  split_ifs at h
  · injection h with h2
    rw [← h2]
  · injection h with h2
    rw [← h2]
    simp

theorem gifBlit_length (cc : Nat) (cs : List GifColor) (r : List Nat)
    (iw l t cw : Nat) (ps : List (Nat × Nat)) (out out2 : List Nat)
    (h : gifBlit cc cs r iw l t cw ps out = .ok out2) :
    out2.length = out.length := by
  induction ps generalizing out with
  | nil =>
    simp only [gifBlit] at h
    injection h with h2
    rw [← h2]
  | cons p ps ih =>
    simp only [gifBlit] at h
    cases hw : gifWritePixel cc cs r iw l t cw out p with
    | error e =>
      rw [hw] at h
      exact Except.noConfusion h
    | ok mid =>
      rw [hw] at h
      rw [ih mid h, gifWritePixel_length cc cs r iw l t cw out p mid hw]

theorem gifDecodeFrame_length (g : GifFileType) (output out : List Nat)
    (h : (gifDecodeFrame g output).res = .ok out) : out.length = output.length := by
  unfold gifDecodeFrame at h
  dsimp only at h
  split at h
  · exact Except.noConfusion h
  · split at h
    · exact Except.noConfusion h
    · split at h
      · exact Except.noConfusion h
      · split at h
        · exact Except.noConfusion h
        · split at h
          · exact Except.noConfusion h
          · rename_i final hb
            injection h with h2
            rw [← h2]
            exact gifBlit_length _ _ _ _ _ _ _ _ _ _ hb

/-- Claim C8 (counterexample): `decode_gif` enforces no dimension quota at
all.  A giflib result with the maximal 65535×65535 canvas and zero frames
decodes to Ok with a buffer of 65535·65535·4 bytes — far above the
16384·16384·4 bound the spec's quota table allows for GIF. -/
theorem C8_counterexample :
    (decode_gif gifLibHuge gifBytes89).res =
      .ok (List.replicate (65535 * 65535 * 4) 0) ∧
    ¬ (List.replicate (65535 * 65535 * 4) (0 : Nat)).length ≤
        specOtherMaxDim * specOtherMaxDim * 4 := by
  constructor
  · exact rfl
  · rw [List.length_replicate]
    simp [specOtherMaxDim]

/-- Claim C8 (corrected): the quota-derived buffer bound holds for the
adapters that enforce (or inherit) a dimension check — JPEG (in-adapter
check against 10000), PNG (libpng user limits 8192, taken as an oracle
hypothesis), WebP and HEIF (in-adapter checks against 16384, with the
foreign buffer shape as hypothesis) — but NOT for GIF: `decode_gif`
performs no dimension check and its successful output always has exactly
`SWidth * SHeight * 4` bytes, unbounded by any quota (the canvas can reach
65535×65535). -/
theorem C8_buffer_bounds :
    (∀ (lib : JpegOracle) (data : List Nat) (out : List Nat),
      (decode_jpeg lib data).res = .ok out →
      out.length ≤ 10000 * 10000 * 4) ∧
    (∀ (lib : PngOracle) (data : List Nat) (out : List Nat),
      (∀ d r, lib d = some r → r.width ≤ 8192 ∧ r.height ≤ 8192) →
      (decode_png lib data).res = .ok out →
      out.length ≤ 8192 * 8192 * 4) ∧
    (∀ (lib : WebpOracle) (data : List Nat) (out : List Nat),
      (∀ d r, lib d = some r → r.bytes.length = r.width * r.height * 4) →
      (decode_webp lib data).res = .ok out →
      out.length ≤ 16384 * 16384 * 4) ∧
    (∀ (lib : HeifOracle) (data : List Nat) (out : List Nat),
      (∀ d r, lib d = .ok r → r.interleaved.length = r.width * r.height * 3) →
      (decode_heif lib data).res = .ok out →
      out.length ≤ 16384 * 16384 * 4) ∧
    (∀ (lib : GifOracle) (data : List Nat) (g : GifFileType) (out : List Nat),
      lib data = .ok g → (decode_gif lib data).res = .ok out →
      out.length = g.SWidth * g.SHeight * 4) := by
  refine ⟨?_, ?_, ?_, ?_, ?_⟩
  · intro lib data out h
    simp only [decode_jpeg] at h
    cases hl : lib data with
    | none =>
      rw [hl] at h
      exact Except.noConfusion h
    | some v =>
      obtain ⟨hd, pix⟩ := v
      rw [hl] at h
      dsimp only at h
      split_ifs at h with hdim
      injection h with h2
      rw [← h2, fillBuffer_length]
      push_neg at hdim
      calc hd.image_width * hd.image_height * 3
          ≤ 10000 * 10000 * 3 :=
            Nat.mul_le_mul (Nat.mul_le_mul hdim.1 hdim.2) (Nat.le_refl 3)
        _ ≤ 10000 * 10000 * 4 := by omega
  · intro lib data out hlim h
    simp only [decode_png] at h
    cases hl : lib data with
    | none =>
      rw [hl] at h
      exact Except.noConfusion h
    | some d =>
      rw [hl] at h
      injection h with h2
      obtain ⟨hw, hh⟩ := hlim data d hl
      rw [← h2, fillBuffer_length]
      calc 4 * d.width * d.height ≤ 4 * 8192 * 8192 :=
            Nat.mul_le_mul (Nat.mul_le_mul (Nat.le_refl 4) hw) hh
        _ = 8192 * 8192 * 4 := by omega
  · intro lib data out hshape h
    simp only [decode_webp] at h
    split_ifs at h
    cases hl : lib data with
    | none =>
      rw [hl] at h
      exact Except.noConfusion h
    | some d =>
      rw [hl] at h
      dsimp only at h
      split_ifs at h with hdim
      injection h with h2
      push_neg at hdim
      rw [← h2, hshape data d hl]
      exact Nat.mul_le_mul (Nat.mul_le_mul hdim.1 hdim.2) (Nat.le_refl 4)
  · intro lib data out hshape h
    simp only [decode_heif] at h
    split_ifs at h
    cases hl : lib data with
    | error e =>
      rw [hl] at h
      exact Except.noConfusion h
    | ok img =>
      rw [hl] at h
      dsimp only at h
      split_ifs at h with hdim
      injection h with h2
      push_neg at hdim
      rw [← h2, hshape data img hl]
      calc img.width * img.height * 3
          ≤ 16384 * 16384 * 3 :=
            Nat.mul_le_mul (Nat.mul_le_mul hdim.1 hdim.2) (Nat.le_refl 3)
        _ ≤ 16384 * 16384 * 4 := by omega
  · intro lib data g out hl h
    simp only [decode_gif] at h
    split_ifs at h
    rw [hl] at h
    dsimp only at h
    by_cases hc : g.ImageCount > 0
    · rw [if_pos hc] at h
      rw [gifDecodeFrame_length g _ out h, List.length_replicate]
    · rw [if_neg hc] at h
      injection h with h2
      rw [← h2, List.length_replicate]

/-- Witness for C8_buffer_bounds at the concrete 1×1 JPEG oracle and the
zero-frame 2×3 GIF oracle. -/
theorem C8_buffer_bounds_witness :
    ([10, 20, 30] : List Nat).length ≤ 10000 * 10000 * 4 ∧
    (List.replicate (2 * 3 * 4) (0 : Nat)).length = 2 * 3 * 4 :=
  ⟨C8_buffer_bounds.1 jpegLib1x1 jpegBytes [10, 20, 30] rfl,
   C8_buffer_bounds.2.2.2.2 gifLibEmpty gifBytes89 ⟨2, 3, none, 0, []⟩
     (List.replicate (2 * 3 * 4) 0) rfl rfl⟩

/-! ## Claim C1 -/

/-- Claim C1 (counterexample): an all-zero input matches neither the PNG
nor the JPEG signature of §4.1, yet both `decode_png` and `decode_jpeg`
invoke the foreign codec on it (`codecCalled = true`): the adapters contain
no magic-byte check of their own, and the rejection (here a generic
`PngError` / `JpegError` raised from inside the library) is produced by
libpng/libjpeg, not before the call. -/
theorem C1_counterexample :
    sliceEq zeroBytes 0 specPngSignature = false ∧
    (decode_png pngLibNone zeroBytes).codecCalled = true ∧
    (decode_png pngLibNone zeroBytes).res = .error (.PngError "PNG decoding failed") ∧
    sliceEq zeroBytes 0 specJpegSignature = false ∧
    (decode_jpeg jpegLibNone zeroBytes).codecCalled = true := by
  exact ⟨by decide, rfl, rfl, by decide, rfl⟩

/-- Claim C1 (corrected): the GIF, WebP, HEIF, MP3, Vorbis and FLAC
adapters do validate magic bytes before any codec invocation — a
non-matching prefix yields the format's error with the codec never called
— but `decode_png` and `decode_jpeg` perform no magic check of their own
and hand every input (wrong-magic ones included) to libpng/libjpeg, whose
in-library failure is surfaced as `PngError`/`JpegError`. -/
theorem C1_magic_gate :
    (∀ (lib : GifOracle) (data : List Nat),
      data.length < 6 ∨ sliceEq data 0 gifB = false ∨
        (sliceEq data 3 gif87B || sliceEq data 3 gif89B) = false →
      (decode_gif lib data).codecCalled = false ∧
      ∃ m, (decode_gif lib data).res = .error (.GifError m)) ∧
    (∀ (lib : WebpOracle) (data : List Nat),
      data.length < 12 ∨ sliceEq data 0 riffB = false ∨ sliceEq data 8 webpB = false →
      (decode_webp lib data).codecCalled = false ∧
      ∃ m, (decode_webp lib data).res = .error (.WebPError m)) ∧
    (∀ (lib : HeifOracle) (data : List Nat),
      data.length < 12 ∨ sliceEq data 4 ftypB = false ∨
        (heifBrands.any fun b => sliceEq data 8 b) = false →
      (decode_heif lib data).codecCalled = false ∧
      ∃ m, (decode_heif lib data).res = .error (.HeifError m)) ∧
    (∀ (lib : Mp3Oracle) (data : List Nat),
      data.length < 2 ∨ byteAt data 0 ≠ 255 ∨ byteAt data 1 &&& 224 ≠ 224 →
      (decode_mp3 lib data).codecCalled = false ∧
      ∃ m, (decode_mp3 lib data).res = .error (.Mp3Error m)) ∧
    (∀ (lib : VorbisOracle) (data : List Nat),
      data.length < 4 ∨ sliceEq data 0 oggB = false →
      (decode_vorbis lib data).codecCalled = false ∧
      ∃ m, (decode_vorbis lib data).res = .error (.VorbisError m)) ∧
    (∀ (lib : FlacOracle) (data : List Nat),
      data.length < 4 ∨ sliceEq data 0 flacB = false →
      (decode_flac lib data).codecCalled = false ∧
      ∃ m, (decode_flac lib data).res = .error (.FlacError m)) ∧
    (∀ (lib : PngOracle) (data : List Nat), (decode_png lib data).codecCalled = true) ∧
    (∀ (lib : JpegOracle) (data : List Nat), (decode_jpeg lib data).codecCalled = true) := by
  refine ⟨?_, ?_, ?_, ?_, ?_, ?_, ?_, ?_⟩
  · intro lib data h
    unfold decode_gif
    split_ifs with h1 h2 h3
    · exact ⟨rfl, "File too small", rfl⟩
    · exact ⟨rfl, "Invalid GIF signature", rfl⟩
    · exact ⟨rfl, "Unknown GIF version", rfl⟩
    · exfalso
      rcases h with h | h | h <;> simp_all
  · intro lib data h
    unfold decode_webp
    split_ifs with h1 h2 h3 h4 h5
    · exact ⟨rfl, "File too small", rfl⟩
    · exact ⟨rfl, "Invalid WebP signature: missing RIFF header", rfl⟩
    · exact ⟨rfl, "Invalid WebP signature: missing WEBP marker", rfl⟩
    · exact ⟨rfl, "WebP size mismatch", rfl⟩
    · exact ⟨rfl, "WebP file too large", rfl⟩
    · exfalso
      rcases h with h | h | h <;> simp_all
  · intro lib data h
    unfold decode_heif
    split_ifs with h1 h2 h3 h4
    · exact ⟨rfl, "File too small", rfl⟩
    · exact ⟨rfl, "Invalid HEIF signature: missing ftyp box", rfl⟩
    · exact ⟨rfl, "Unsupported HEIF brand", rfl⟩
    · exact ⟨rfl, "HEIF file too large", rfl⟩
    · exfalso
      rcases h with h | h | h <;> simp_all
  · intro lib data h
    unfold decode_mp3
    split_ifs
    · exact ⟨rfl, "File too large", rfl⟩
    · exact ⟨rfl, "Invalid MP3 signature", rfl⟩
  · intro lib data h
    unfold decode_vorbis
    split_ifs
    · exact ⟨rfl, "File too large", rfl⟩
    · exact ⟨rfl, "Invalid Ogg signature", rfl⟩
  · intro lib data h
    unfold decode_flac
    split_ifs
    · exact ⟨rfl, "File too large", rfl⟩
    · exact ⟨rfl, "Invalid FLAC signature", rfl⟩
  · intro lib data
    unfold decode_png
    cases lib data <;> rfl
  · intro lib data
    unfold decode_jpeg
    rcases lib data with _ | ⟨hd, pix⟩
    · rfl
    · dsimp only
      split_ifs <;> rfl

/-- Witness for C1_magic_gate on concrete wrong-magic inputs. -/
theorem C1_magic_gate_witness :
    (decode_gif gifLibEmpty zeroBytes).codecCalled = false ∧
    (decode_webp webpLibNone zeroBytes).codecCalled = false ∧
    (decode_mp3 mp3Lib192 zeroBytes).codecCalled = false ∧
    (decode_png pngLibNone zeroBytes).codecCalled = true :=
  ⟨(C1_magic_gate.1 gifLibEmpty zeroBytes (by decide)).1,
   (C1_magic_gate.2.1 webpLibNone zeroBytes (by decide)).1,
   (C1_magic_gate.2.2.2.1 mp3Lib192 zeroBytes (by decide)).1,
   C1_magic_gate.2.2.2.2.2.2.1 pngLibNone zeroBytes⟩

end ImageHarden
